import Mathlib

/-!
Verification of the `jsontests` state-test harness (`src/jsontests/src/state.rs`).

The harness adapts statically configured "builtin" precompiled contracts into
the execution engine's precompile interface and drives one transaction per
(fork, variant) case: it builds the execution context, withdraws the upfront
fee, dispatches the transaction, settles the fee, applies the diff and checks
the post-state hash.

Modelling conventions:
  * machine integers (`u64`, `U256`) are `Nat`s; `u64MAX = 2^64 - 1` bounds the
    representable gas range;
  * byte strings are `List Nat`;
  * Rust panics (`unwrap`, `as_u64` overflow, `U256` subtraction underflow)
    are modelled by `Option.none` on the result type;
  * the external execution engine (`StackExecutor`) is an opaque parameter of
    the driver model: a function from the engine-visible balance state to a
    post-dispatch state, a consumed fee, and an (ignored) outcome;
  * account states are modelled by their balance view `Addr → Nat`, the only
    component the harness itself reads or writes.
-/

/-- `u64::MAX`. -/
def u64MAX : Nat := 2 ^ 64 - 1

/-- Addresses (`H160`); `H160::from_low_u64_be` embeds a small index. -/
abbrev Addr := Nat

/-- The engine's `ExitError` variants used by the adapter. -/
inductive ExitError where
  | OutOfGas : ExitError
  | Other : String → ExitError
  deriving DecidableEq, Repr

/-- The engine's success status; the adapter always reports `Stopped`. -/
inductive ExitSucceed where
  | Stopped : ExitSucceed
  | Returned : ExitSucceed
  deriving DecidableEq, Repr

/-- `PrecompileFailure` as used in `state.rs` (only the `Error` variant). -/
inductive PrecompileFailure where
  | Error : ExitError → PrecompileFailure
  deriving DecidableEq, Repr

/-- A log entry; precompiles never emit any, so its content is irrelevant. -/
structure Log where
  address : Addr
  data : List Nat
  deriving DecidableEq, Repr

/-- `executor::PrecompileOutput`. -/
structure PrecompileOutput where
  exit_status : ExitSucceed
  output : List Nat
  cost : Nat
  logs : List Log
  deriving DecidableEq, Repr

/-- An `ethcore_builtin::Builtin`: a cost function (`U256`-valued, evaluated at
block number 0 by the harness) and an execution behaviour writing output bytes
or failing with an error message. -/
structure Builtin where
  cost : List Nat → Nat
  execute : List Nat → Except String (List Nat)

/-- The `Ok`-branch of `exec_as_precompile`: run the builtin, collect the
output, and build the `PrecompileOutput` whose gas field is `cost.as_u64()`.
`as_u64` panics (`none`) when the `U256` cost does not fit in a `u64`. -/
def execBuiltin (builtin : Builtin) (input : List Nat) (cost : Nat) :
    Option (Except PrecompileFailure PrecompileOutput) :=
  match builtin.execute input with
  | Except.ok output =>
      if u64MAX < cost then
        none
      else
        some (Except.ok
          { exit_status := ExitSucceed.Stopped
            output := output
            cost := cost
            logs := [] })
  | Except.error e => some (Except.error (PrecompileFailure.Error (ExitError.Other e)))

/-- `JsonPrecompile::exec_as_precompile`: compute the cost; when a gas limit is
supplied, fail with `OutOfGas` if the cost exceeds the `u64` range or the gas
limit is strictly below it; otherwise execute the builtin. -/
def exec_as_precompile (builtin : Builtin) (input : List Nat)
    (gas_limit : Option Nat) : Option (Except PrecompileFailure PrecompileOutput) :=
  let cost := builtin.cost input
  match gas_limit with
  | some target_gas =>
      if u64MAX < cost ∨ target_gas < cost then
        some (Except.error (PrecompileFailure.Error ExitError.OutOfGas))
      else
        execBuiltin builtin input cost
  | none => execBuiltin builtin input cost

/-- The engine's call `Context` (address, caller, apparent value); the adapter
ignores it. -/
structure Context where
  address : Addr
  caller : Addr
  apparent_value : Nat
  deriving DecidableEq, Repr

/-- `executor::PrecompileFn`, with the panic possibility made explicit. -/
abbrev PrecompileFn :=
  List Nat → Option Nat → Context → Bool → Option (Except PrecompileFailure PrecompileOutput)

/-- The closure produced by the `precompile_entry!` macro for a given builtin
map and index: look the builtin up at `H160::from_low_u64_be(index)` (panicking
if absent) and run `exec_as_precompile` on it. -/
def precompileEntryFn (builtins : List (Addr × Builtin)) (index : Nat) : PrecompileFn :=
  fun input gas_limit _context _is_static =>
    match (builtins.lookup index) with
    | some builtin => exec_as_precompile builtin input gas_limit
    | none => none

/-- `BTreeMap::insert` on an association list sorted by key: replaces an
existing binding or inserts in key order. -/
def btreeInsert (m : List (Addr × α)) (k : Addr) (v : α) : List (Addr × α) :=
  match m with
  | [] => [(k, v)]
  | (k0, v0) :: rest =>
      if k < k0 then (k, v) :: (k0, v0) :: rest
      else if k = k0 then (k, v) :: rest
      else (k0, v0) :: btreeInsert rest k v

/-- A builtin execution behaviour standing for the externally configured
native implementations (their semantics are out of scope for the harness). -/
def identityExec : List Nat → Except String (List Nat) := fun input => Except.ok input

/-- Modelled from the spec: the builtin configuration resource
`./res/istanbul_builtins.json` is not part of `src/`; per the spec it is "a
mapping from address to a builtin descriptor (kind + fixed/linear cost
parameters)" defining "a small fixed set of addresses (1 through 9)". -/
def ISTANBUL_BUILTINS : List (Addr × Builtin) :=
  (List.range 9).map (fun i => (i + 1, ⟨fun input => 15 + 3 * input.length, identityExec⟩))

/-- Modelled from the spec: the builtin configuration resource
`./res/berlin_builtins.json` is not part of `src/`; per the spec it is "a
mapping from address to a builtin descriptor (kind + fixed/linear cost
parameters)" defining "a small fixed set of addresses (1 through 9)". -/
def BERLIN_BUILTINS : List (Addr × Builtin) :=
  (List.range 9).map (fun i => (i + 1, ⟨fun input => 3 + input.length, identityExec⟩))

/-- `ethjson::spec::ForkSpec` (external enumeration of fork identifiers). -/
inductive ForkSpec where
  | Frontier | Homestead | EIP150 | EIP158 | Byzantium
  | Constantinople | ConstantinopleFix | Istanbul | Berlin | London
  deriving DecidableEq, Repr

/-- `JsonPrecompile::precompile`: for Istanbul and Berlin, build the registry
by nine `precompile_entry!` insertions at addresses 1 through 9 over the
fork's builtin map; any other fork yields `none`. -/
def precompile (spec : ForkSpec) : Option (List (Addr × PrecompileFn)) :=
  match spec with
  | ForkSpec.Istanbul =>
      let map : List (Addr × PrecompileFn) := []
      let map := btreeInsert map 1 (precompileEntryFn ISTANBUL_BUILTINS 1)
      let map := btreeInsert map 2 (precompileEntryFn ISTANBUL_BUILTINS 2)
      let map := btreeInsert map 3 (precompileEntryFn ISTANBUL_BUILTINS 3)
      let map := btreeInsert map 4 (precompileEntryFn ISTANBUL_BUILTINS 4)
      let map := btreeInsert map 5 (precompileEntryFn ISTANBUL_BUILTINS 5)
      let map := btreeInsert map 6 (precompileEntryFn ISTANBUL_BUILTINS 6)
      let map := btreeInsert map 7 (precompileEntryFn ISTANBUL_BUILTINS 7)
      let map := btreeInsert map 8 (precompileEntryFn ISTANBUL_BUILTINS 8)
      let map := btreeInsert map 9 (precompileEntryFn ISTANBUL_BUILTINS 9)
      some map
  | ForkSpec.Berlin =>
      let map : List (Addr × PrecompileFn) := []
      let map := btreeInsert map 1 (precompileEntryFn BERLIN_BUILTINS 1)
      let map := btreeInsert map 2 (precompileEntryFn BERLIN_BUILTINS 2)
      let map := btreeInsert map 3 (precompileEntryFn BERLIN_BUILTINS 3)
      let map := btreeInsert map 4 (precompileEntryFn BERLIN_BUILTINS 4)
      let map := btreeInsert map 5 (precompileEntryFn BERLIN_BUILTINS 5)
      let map := btreeInsert map 6 (precompileEntryFn BERLIN_BUILTINS 6)
      let map := btreeInsert map 7 (precompileEntryFn BERLIN_BUILTINS 7)
      let map := btreeInsert map 8 (precompileEntryFn BERLIN_BUILTINS 8)
      let map := btreeInsert map 9 (precompileEntryFn BERLIN_BUILTINS 9)
      some map
  | _ => none

/-- The fork gating at the head of `test_run`: Istanbul and Berlin map to
their gasometer configuration together with the empty-account deletion flag;
every other fork is skipped (`none`). -/
inductive Config where
  | istanbul : Config
  | berlin : Config
  deriving DecidableEq, Repr

/-- The `match spec` at the top of `test_run`'s fork loop. -/
def forkGate (spec : ForkSpec) : Option (Config × Bool) :=
  match spec with
  | ForkSpec.Istanbul => some (Config.istanbul, true)
  | ForkSpec.Berlin => some (Config.berlin, true)
  | _ => none

/-- The environment section of a test vector (`self.0.env`). -/
structure Env where
  number : Nat
  author : Addr
  timestamp : Nat
  difficulty : Nat
  gas_limit : Nat
  deriving DecidableEq, Repr

/-- The transaction template fields `unwrap_to_vicinity` reads
(`self.0.transaction`); the secret key is raw `H256` material. -/
structure Transaction where
  gas_price : Nat
  secret : Nat
  deriving DecidableEq, Repr

/-- The test-vector record, restricted to the fields the context builder
reads. -/
structure Test where
  env : Env
  transaction : Transaction
  deriving DecidableEq, Repr

/-- `MemoryVicinity`. -/
structure MemoryVicinity where
  gas_price : Nat
  origin : Addr
  block_hashes : List Nat
  block_number : Nat
  block_coinbase : Addr
  block_timestamp : Nat
  block_difficulty : Nat
  block_gas_limit : Nat
  chain_id : Nat
  deriving DecidableEq, Repr

/-- `Test::unwrap_caller`: derive the sender address from the transaction's
secret key through the external `parity_crypto::publickey` pipeline, which is
the opaque parameter `derive`. -/
def unwrap_caller (derive : Nat → Addr) (t : Test) : Addr :=
  derive t.transaction.secret

/-- `Test::unwrap_to_vicinity`: gas price and block metadata verbatim from
the vector, empty block-hash history, chain id 1. -/
def unwrap_to_vicinity (derive : Nat → Addr) (t : Test) : MemoryVicinity :=
  { gas_price := t.transaction.gas_price
    origin := unwrap_caller derive t
    block_hashes := []
    block_number := t.env.number
    block_coinbase := t.env.author
    block_timestamp := t.env.timestamp
    block_difficulty := t.env.difficulty
    block_gas_limit := t.env.gas_limit
    chain_id := 1 }

/-- The balance view of an account state; the only state component which the
driver itself reads or writes. -/
abbrev Balances := Addr → Nat

/-- `deposit` on the executor state: increase an account's balance. -/
def deposit (s : Balances) (a : Addr) (v : Nat) : Balances :=
  fun x => if x = a then s x + v else s x

/-- `withdraw` on the executor state: decrease an account's balance, failing
(`Err`, hence `unwrap` panic in the driver) when the balance is
insufficient. -/
def withdraw (s : Balances) (a : Addr) (v : Nat) : Option Balances :=
  if v ≤ s a then some (fun x => if x = a then s x - v else s x) else none

/-- The dispatch outcome (`ExitReason`); the driver binds it to `_reason` and
never reads it. -/
inductive Outcome where
  | Succeed : Outcome
  | Revert : Outcome
  | Fatal : Outcome
  | Failed : Outcome
  deriving DecidableEq, Repr

/-- The external execution engine as the driver consumes it: from the
post-withdrawal state, produce the post-dispatch state, the actual fee
(`executor.fee(gas_price)`), and the ignored dispatch outcome. -/
abbrev Engine := Balances → Balances × Nat × Outcome

/-- One (fork, variant) case of `test_run` (lines 192-243), with the engine
opaque: clone the pre-state into a fresh backend, withdraw
`total_fee = gas_price * gas_limit` from the caller (`unwrap`: `none` on
insufficient balance), dispatch, then unconditionally deposit the actual fee
to the coinbase and the remainder `total_fee - actual_fee` to the caller
(`U256` subtraction: `none` on underflow). The result is the final balance
view of the backend after `apply`. -/
def runVariant (engine : Engine) (vicinity : MemoryVicinity) (caller : Addr)
    (original_state : Balances) (gas_limit : Nat) : Option Balances :=
  let backend := original_state
  let total_fee := vicinity.gas_price * gas_limit
  match withdraw backend caller total_fee with
  | none => none
  | some st1 =>
      let (st2, actual_fee, _reason) := engine st1
      if actual_fee ≤ total_fee then
        some (deposit (deposit st2 vicinity.block_coinbase actual_fee) caller
          (total_fee - actual_fee))
      else none

/-- One entry of the variant list: the selected transaction fields plus the
engine's behaviour on that variant's dispatch. -/
structure Variant where
  gas_limit : Nat
  engine : Engine

/-- The inner loop of `test_run` over a fork's variant list: every iteration
starts from a fresh clone of `original_state`. -/
def runVariants (vicinity : MemoryVicinity) (caller : Addr)
    (original_state : Balances) (variants : List Variant) : List (Option Balances) :=
  variants.map (fun v => runVariant v.engine vicinity caller original_state v.gas_limit)

/-! Concrete fixtures used to instantiate the theorems below. -/

/-- A sample builtin with an affine cost function. -/
def builtinTest : Builtin :=
  ⟨fun input => 15 + 3 * input.length, identityExec⟩

/-- A sample builtin whose cost exceeds the `u64` range. -/
def builtinHuge : Builtin :=
  ⟨fun _ => 2 ^ 64, identityExec⟩

/-- A sample builtin whose execution fails. -/
def builtinFail : Builtin :=
  ⟨fun _ => 10, fun _ => Except.error "err"⟩

/-- A sample vicinity: gas price 2, coinbase at address 7. -/
def vicTest : MemoryVicinity :=
  { gas_price := 2
    origin := 3
    block_hashes := []
    block_number := 0
    block_coinbase := 7
    block_timestamp := 0
    block_difficulty := 0
    block_gas_limit := 1000
    chain_id := 1 }

/-- A sample pre-state: every account holds 100. -/
def balTest : Balances := fun _ => 100

/-- A sample engine that keeps the state and consumes a fee of 6. -/
def engineTest : Engine := fun s => (s, 6, Outcome.Succeed)

/-- A second sample engine, observably different from `engineTest`. -/
def engineTest2 : Engine := fun s => (deposit s 9 1, 1, Outcome.Revert)

/-- The sample post-withdrawal state for caller 3, fee 2 * 10 over
`balTest`. -/
def withdrawnTest : Balances :=
  fun x => if x = 3 then balTest x - 2 * 10 else balTest x

/-- A sample variant. -/
def variantTest : Variant := ⟨10, engineTest⟩

/-! The claims. -/

/-- C1: for every supported fork the registry returned by
`JsonPrecompile::precompile` has entries for exactly the addresses that the
fork's builtin configuration resource defines, and for every unsupported fork
it returns `none`. -/
theorem precompile_matches_resource :
    (precompile ForkSpec.Istanbul).map (fun m => m.map Prod.fst)
      = some (ISTANBUL_BUILTINS.map Prod.fst) ∧
    (precompile ForkSpec.Berlin).map (fun m => m.map Prod.fst)
      = some (BERLIN_BUILTINS.map Prod.fst) ∧
    (∀ spec : ForkSpec,
      precompile spec = none ↔ ¬(spec = ForkSpec.Istanbul ∨ spec = ForkSpec.Berlin)) := by
  refine ⟨rfl, rfl, ?_⟩
  intro spec
  cases spec <;> simp [precompile]

/-- C5: `JsonPrecompile::precompile` returns `some` exactly for Istanbul and
Berlin; each registry maps the fixed address set 1 through 9 to the
`precompile_entry!` adapter over the fork's builtin map; any other fork yields
`none` (callers skip it). -/
theorem precompile_supported_forks :
    (∀ spec : ForkSpec,
      (precompile spec).isSome ↔ (spec = ForkSpec.Istanbul ∨ spec = ForkSpec.Berlin)) ∧
    (precompile ForkSpec.Istanbul).map (fun m => m.map Prod.fst)
      = some [1, 2, 3, 4, 5, 6, 7, 8, 9] ∧
    (precompile ForkSpec.Berlin).map (fun m => m.map Prod.fst)
      = some [1, 2, 3, 4, 5, 6, 7, 8, 9] ∧
    (∀ i : Nat, 1 ≤ i → i ≤ 9 →
      ((precompile ForkSpec.Istanbul).getD []).lookup i
        = some (precompileEntryFn ISTANBUL_BUILTINS i)) ∧
    (∀ i : Nat, 1 ≤ i → i ≤ 9 →
      ((precompile ForkSpec.Berlin).getD []).lookup i
        = some (precompileEntryFn BERLIN_BUILTINS i)) := by
  refine ⟨?_, rfl, rfl, ?_, ?_⟩
  · intro spec
    cases spec <;> simp [precompile]
  · intro i h1 h9
    interval_cases i <;> rfl
  · intro i h1 h9
    interval_cases i <;> rfl

/-- C5 witness: the hypothesized conjuncts at addresses 5 and 9. -/
theorem precompile_supported_forks_witness :
    ((precompile ForkSpec.Istanbul).getD []).lookup 5
      = some (precompileEntryFn ISTANBUL_BUILTINS 5) ∧
    ((precompile ForkSpec.Berlin).getD []).lookup 9
      = some (precompileEntryFn BERLIN_BUILTINS 9) :=
  ⟨precompile_supported_forks.2.2.2.1 5 (by decide) (by decide),
   precompile_supported_forks.2.2.2.2 9 (by decide) (by decide)⟩

/-- C9: every fork that passes the fork gating in `test_run` (Istanbul or
Berlin) has a precompile registry, so the `unwrap` of
`JsonPrecompile::precompile(spec)` at the precompile-binding step cannot
panic. -/
theorem gate_implies_precompile (spec : ForkSpec) (h : (forkGate spec).isSome) :
    (precompile spec).isSome := by
  cases spec <;> simp_all [forkGate, precompile]

/-- C9 witness: the gated fork Istanbul has a registry. -/
theorem gate_implies_precompile_witness : (precompile ForkSpec.Istanbul).isSome :=
  gate_implies_precompile ForkSpec.Istanbul (by decide)

/-- C2: when a gas limit is supplied and the computed cost strictly exceeds it,
or the cost exceeds the representable `u64` gas range, the adapter returns an
out-of-gas failure; the result is the same for every execution behaviour with
the same cost function, so the builtin is never executed (no output, no state
touched). -/
theorem exec_oog (b : Builtin) (input : List Nat) (target_gas : Nat)
    (h : target_gas < b.cost input ∨ u64MAX < b.cost input) :
    exec_as_precompile b input (some target_gas)
      = some (Except.error (PrecompileFailure.Error ExitError.OutOfGas)) ∧
    ∀ ex : List Nat → Except String (List Nat),
      exec_as_precompile ⟨b.cost, ex⟩ input (some target_gas)
        = some (Except.error (PrecompileFailure.Error ExitError.OutOfGas)) := by
  have hc : u64MAX < b.cost input ∨ target_gas < b.cost input := h.symm
  refine ⟨?_, fun ex => ?_⟩ <;> simp [exec_as_precompile, hc]

/-- C2 witness: `builtinTest` costs 15 on empty input; a gas limit of 5 gives
out-of-gas whatever the execution behaviour. -/
theorem exec_oog_witness :
    exec_as_precompile builtinTest [] (some 5)
      = some (Except.error (PrecompileFailure.Error ExitError.OutOfGas)) ∧
    exec_as_precompile ⟨builtinTest.cost, fun _ => Except.error "boom"⟩ [] (some 5)
      = some (Except.error (PrecompileFailure.Error ExitError.OutOfGas)) :=
  ⟨(exec_oog builtinTest [] 5 (Or.inl (by decide))).1,
   (exec_oog builtinTest [] 5 (Or.inl (by decide))).2 (fun _ => Except.error "boom")⟩

/-- C6: when the builtin executes successfully the adapter returns the
collected output, a `Stopped` status, the computed cost as consumed gas and no
logs; when execution fails the error is wrapped as an opaque `Other` engine
failure — both with and without a supplied gas limit. -/
theorem exec_result_shape (b : Builtin) (input out : List Nat) (e : String) (g : Nat) :
    (b.execute input = Except.ok out → b.cost input ≤ u64MAX → b.cost input ≤ g →
      exec_as_precompile b input (some g)
        = some (Except.ok ⟨ExitSucceed.Stopped, out, b.cost input, []⟩)) ∧
    (b.execute input = Except.error e → b.cost input ≤ u64MAX → b.cost input ≤ g →
      exec_as_precompile b input (some g)
        = some (Except.error (PrecompileFailure.Error (ExitError.Other e)))) ∧
    (b.execute input = Except.ok out → b.cost input ≤ u64MAX →
      exec_as_precompile b input none
        = some (Except.ok ⟨ExitSucceed.Stopped, out, b.cost input, []⟩)) ∧
    (b.execute input = Except.error e →
      exec_as_precompile b input none
        = some (Except.error (PrecompileFailure.Error (ExitError.Other e)))) := by
  refine ⟨fun hx hu hg => ?_, fun hx hu hg => ?_, fun hx hu => ?_, fun hx => ?_⟩
  · simp [exec_as_precompile, execBuiltin, hx, Nat.not_lt.mpr hu, Nat.not_lt.mpr hg]
  · simp [exec_as_precompile, execBuiltin, hx, Nat.not_lt.mpr hu, Nat.not_lt.mpr hg]
  · simp [exec_as_precompile, execBuiltin, hx, Nat.not_lt.mpr hu]
  · simp [exec_as_precompile, execBuiltin, hx]

/-- C6 witness: the identity builtin succeeds and echoes its input at cost 21;
the failing builtin surfaces its error as `Other "err"`. -/
theorem exec_result_shape_witness :
    exec_as_precompile builtinTest [1, 2] (some 21)
      = some (Except.ok ⟨ExitSucceed.Stopped, [1, 2], 21, []⟩) ∧
    exec_as_precompile builtinFail [] (some 10)
      = some (Except.error (PrecompileFailure.Error (ExitError.Other "err"))) :=
  ⟨(exec_result_shape builtinTest [1, 2] [1, 2] "x" 21).1 rfl (by decide) (by decide),
   (exec_result_shape builtinFail [] [] "err" 10).2.1 rfl (by decide) (by decide)⟩

/-- C10: with no gas limit supplied the adapter skips the cost check entirely
and proceeds straight to execution; if the builtin then succeeds while the cost
exceeds the `u64` range, the `cost.as_u64()` conversion on the success path
panics (modelled as `none`) instead of reporting out-of-gas. -/
theorem exec_no_gas_check (b : Builtin) (input out : List Nat) :
    exec_as_precompile b input none = execBuiltin b input (b.cost input) ∧
    (b.execute input = Except.ok out → u64MAX < b.cost input →
      exec_as_precompile b input none = none) := by
  refine ⟨rfl, fun hx hu => ?_⟩
  simp [exec_as_precompile, execBuiltin, hx, hu]

/-- C10 witness: the huge-cost builtin succeeds on empty input, and the
adapter without a gas limit panics rather than failing with out-of-gas. -/
theorem exec_no_gas_check_witness :
    exec_as_precompile builtinHuge [] none = none :=
  (exec_no_gas_check builtinHuge [] []).2 rfl (by decide)

/-- C7: the vicinity built by `unwrap_to_vicinity` takes gas price, block
number, coinbase, timestamp, difficulty and gas limit verbatim from the test
vector's environment section, has an empty historical block-hash list, and
fixes the chain id to 1 — for every derivation function and test vector. -/
theorem vicinity_fields (derive : Nat → Addr) (t : Test) :
    (unwrap_to_vicinity derive t).gas_price = t.transaction.gas_price ∧
    (unwrap_to_vicinity derive t).block_number = t.env.number ∧
    (unwrap_to_vicinity derive t).block_coinbase = t.env.author ∧
    (unwrap_to_vicinity derive t).block_timestamp = t.env.timestamp ∧
    (unwrap_to_vicinity derive t).block_difficulty = t.env.difficulty ∧
    (unwrap_to_vicinity derive t).block_gas_limit = t.env.gas_limit ∧
    (unwrap_to_vicinity derive t).block_hashes = [] ∧
    (unwrap_to_vicinity derive t).chain_id = 1 :=
  ⟨rfl, rfl, rfl, rfl, rfl, rfl, rfl, rfl⟩

/-- C3: after dispatch — whatever state, fee and outcome the engine produces —
the driver deposits the actual fee to the coinbase and the remainder
`total_fee - actual_fee` to the sender, and the two deposited amounts sum to
exactly the withdrawn `total_fee = gas_price * gas_limit`. -/
theorem fee_settlement (engine : Engine) (vic : MemoryVicinity) (caller : Addr)
    (original : Balances) (gas_limit : Nat) (st2 : Balances) (actual_fee : Nat)
    (outcome : Outcome)
    (hw : vic.gas_price * gas_limit ≤ original caller)
    (he : engine (fun x => if x = caller then original x - vic.gas_price * gas_limit
            else original x) = (st2, actual_fee, outcome))
    (hf : actual_fee ≤ vic.gas_price * gas_limit) :
    runVariant engine vic caller original gas_limit
      = some (deposit (deposit st2 vic.block_coinbase actual_fee) caller
          (vic.gas_price * gas_limit - actual_fee)) ∧
    actual_fee + (vic.gas_price * gas_limit - actual_fee)
      = vic.gas_price * gas_limit := by
  constructor
  · simp [runVariant, withdraw, Nat.not_lt.mpr hw, hw, he, hf]
  · omega

/-- C3 witness: with gas price 2 and gas limit 10, an engine that keeps the
state and consumes 6 leads to a coinbase deposit of 6 and a sender refund of
14, summing to the withdrawn 20. -/
theorem fee_settlement_witness :
    runVariant engineTest vicTest 3 balTest 10
      = some (deposit (deposit withdrawnTest vicTest.block_coinbase 6) 3
          (vicTest.gas_price * 10 - 6)) ∧
    6 + (vicTest.gas_price * 10 - 6) = vicTest.gas_price * 10 :=
  fee_settlement engineTest vicTest 3 balTest 10 withdrawnTest 6 Outcome.Succeed
    (by decide) rfl (by decide)

/-- C4: the driver withdraws `total_fee = gas_price * gas_limit` from the
sender before dispatch; if the sender's balance is insufficient the `unwrap`
panics (`none`), and the engine is never consulted — the result is the same
for every engine. -/
theorem upfront_withdrawal (engine engine2 : Engine) (vic : MemoryVicinity)
    (caller : Addr) (original : Balances) (gas_limit : Nat)
    (h : original caller < vic.gas_price * gas_limit) :
    runVariant engine vic caller original gas_limit = none ∧
    runVariant engine vic caller original gas_limit
      = runVariant engine2 vic caller original gas_limit := by
  have hn : ¬ vic.gas_price * gas_limit ≤ original caller := Nat.not_le.mpr h
  constructor <;> simp [runVariant, withdraw, hn]

/-- C4 witness: a balance of 100 cannot cover `total_fee = 2 * 100 = 200`;
the run panics, identically for two observably different engines. -/
theorem upfront_withdrawal_witness :
    runVariant engineTest vicTest 3 balTest 100 = none ∧
    runVariant engineTest vicTest 3 balTest 100
      = runVariant engineTest2 vicTest 3 balTest 100 :=
  upfront_withdrawal engineTest engineTest2 vicTest 3 balTest 100 (by decide)

/-- C8: the variant loop maps each case over a pristine clone of the original
pre-state, so the result of a case depends only on that case's own content:
equal cases at any two positions produce equal post-states (hence equal
post-state hashes), and each position's result is exactly the one-case run
from the original pre-state. -/
theorem run_variants_deterministic (vic : MemoryVicinity) (caller : Addr)
    (original : Balances) (variants : List Variant) (i j : Nat)
    (h : variants[i]? = variants[j]?) :
    (runVariants vic caller original variants)[i]?
      = (runVariants vic caller original variants)[j]? ∧
    (runVariants vic caller original variants)[i]?
      = (variants[i]?).map (fun v => runVariant v.engine vic caller original v.gas_limit) := by
  unfold runVariants
  constructor <;> simp [List.getElem?_map, h]

/-- C8 witness: running the same variant twice in a row from the same
pre-state yields identical results. -/
theorem run_variants_deterministic_witness :
    (runVariants vicTest 3 balTest [variantTest, variantTest])[0]?
      = (runVariants vicTest 3 balTest [variantTest, variantTest])[1]? :=
  (run_variants_deterministic vicTest 3 balTest [variantTest, variantTest] 0 1 rfl).1
